import Mathlib

/-!
Verification of the configuration-validation and event-logging subsystem of
the self-evolving-trading-intelligence repository.

Source files embedded:
- `src/config.py` — `TradingConfig` dataclass and `validate_config`.
- `src/firebase_manager.py` — `FirebaseManager.__init__` and
  `FirebaseManager.log_trading_event` (whose body is missing from the
  source tree: the file is cut off inside the docstring at line 73, so the
  logger is modelled from the specification).

Python floats carrying the configuration parameters are embedded as `Rat`:
every comparison `validate_config` performs is an order comparison against
the exact constants 0 and 1, where rational semantics and IEEE-754 semantics
agree for the representable values at issue.
-/

/-- The ambient filesystem seen by `os.path.exists`.  `os.path.exists ''`
is `False` in Python, which the invariant records. -/
structure FileSystem where
  pathExists : String → Bool
  empty_path_absent : pathExists "" = false

/-- A filesystem with no files at all. -/
def fsNone : FileSystem :=
  ⟨fun _ => false, rfl⟩

/-- A filesystem on which exactly the single (non-empty) path `p` exists. -/
def fsOnly (p : String) : FileSystem :=
  ⟨fun q => q ≠ "" && q == p, by simp⟩

/-- Embeds the `TradingConfig` dataclass of `src/config.py` (lines 15-49).
The environment-variable defaults are supplied by the external loader and
are not part of the validation logic, so the structure carries the fields
without defaults. -/
structure TradingConfig where
  FIREBASE_CREDENTIALS_PATH : String
  FIREBASE_DATABASE_URL : String
  EXCHANGE_NAME : String
  EXCHANGE_API_KEY : String
  EXCHANGE_SECRET_KEY : String
  TRADING_PAIR : String
  TIMEFRAME : String
  INITIAL_CAPITAL : Rat
  RL_MODEL_PATH : String
  RL_LEARNING_RATE : Rat
  RL_GAMMA : Rat
  SENTIMENT_MODEL_PATH : String
  NEWS_API_KEY : String
  SOCIAL_MEDIA_ENABLED : Bool
  MAX_POSITION_SIZE : Rat
  STOP_LOSS_PERCENT : Rat
  TAKE_PROFIT_PERCENT : Rat
  LOG_LEVEL : String
  ENABLE_FIREBASE_LOGGING : Bool

/-- Observable outcome of `validate_config`: the collected error messages
(each is logged with `logging.error`), the warnings emitted along the way
(`logging.warning`), and the returned boolean. -/
structure ValidateOutcome where
  errors : List String
  warnings : List String
  result : Bool
deriving DecidableEq, Repr

/-- Embeds `validate_config` of `src/config.py` (lines 51-78).
`not config.FIREBASE_CREDENTIALS_PATH` is Python string falsiness, i.e.
emptiness; `os.path.exists` is the `pathExists` field of the ambient
filesystem (`config.py` imports `os` at line 6). The function returns
`True` iff the collected error list is empty. -/
def validate_config (fs : FileSystem) (config : TradingConfig) : ValidateOutcome :=
  let firebaseErrors : List String :=
    if config.ENABLE_FIREBASE_LOGGING then
      if config.FIREBASE_CREDENTIALS_PATH = "" then
        ["FIREBASE_CREDENTIALS_PATH is required when Firebase logging is enabled"]
      else if fs.pathExists config.FIREBASE_CREDENTIALS_PATH = false then
        ["Firebase credentials file not found: " ++ config.FIREBASE_CREDENTIALS_PATH]
      else []
    else []
  let warnings : List String :=
    if config.EXCHANGE_API_KEY = "" ∨ config.EXCHANGE_SECRET_KEY = "" then
      ["Exchange API credentials not configured - running in simulation mode only"]
    else []
  let positionErrors : List String :=
    if config.MAX_POSITION_SIZE ≤ 0 ∨ 1 < config.MAX_POSITION_SIZE then
      ["MAX_POSITION_SIZE must be between 0 and 1"]
    else []
  let stopLossErrors : List String :=
    if config.STOP_LOSS_PERCENT ≤ 0 then
      ["STOP_LOSS_PERCENT must be positive"]
    else []
  let errors := firebaseErrors ++ positionErrors ++ stopLossErrors
  ⟨errors, warnings, errors.isEmpty⟩

/-- A fully valid sample configuration, used by the concrete witnesses. -/
def cfgSample : TradingConfig where
  FIREBASE_CREDENTIALS_PATH := "./firebase-credentials.json"
  FIREBASE_DATABASE_URL := ""
  EXCHANGE_NAME := "binance"
  EXCHANGE_API_KEY := ""
  EXCHANGE_SECRET_KEY := ""
  TRADING_PAIR := "BTC/USDT"
  TIMEFRAME := "1h"
  INITIAL_CAPITAL := 10000
  RL_MODEL_PATH := "./models/rl_agent"
  RL_LEARNING_RATE := 1 / 1000
  RL_GAMMA := 99 / 100
  SENTIMENT_MODEL_PATH := "./models/sentiment"
  NEWS_API_KEY := ""
  SOCIAL_MEDIA_ENABLED := false
  MAX_POSITION_SIZE := 1 / 10
  STOP_LOSS_PERCENT := 2
  TAKE_PROFIT_PERCENT := 5
  LOG_LEVEL := "INFO"
  ENABLE_FIREBASE_LOGGING := true

/-- C2: every configuration with `MAX_POSITION_SIZE` in `(0, 1]`,
`STOP_LOSS_PERCENT > 0`, and either Firebase logging disabled or the
credentials path naming an existing file, passes `validate_config`. -/
theorem validate_config_accepts_valid (fs : FileSystem) (cfg : TradingConfig)
    (h1 : 0 < cfg.MAX_POSITION_SIZE) (h2 : cfg.MAX_POSITION_SIZE ≤ 1)
    (h3 : 0 < cfg.STOP_LOSS_PERCENT)
    (h4 : cfg.ENABLE_FIREBASE_LOGGING = false ∨
          fs.pathExists cfg.FIREBASE_CREDENTIALS_PATH = true) :
    (validate_config fs cfg).result = true := by
  unfold validate_config
  have hp : ¬ (cfg.MAX_POSITION_SIZE ≤ 0 ∨ 1 < cfg.MAX_POSITION_SIZE) := by
    push_neg
    exact ⟨h1, h2⟩
  have hs : ¬ cfg.STOP_LOSS_PERCENT ≤ 0 := not_le.mpr h3
  rcases h4 with h4 | h4
  · simp [h4, hp, hs]
  · have hne : cfg.FIREBASE_CREDENTIALS_PATH ≠ "" := by
      intro he
      rw [he] at h4
      rw [fs.empty_path_absent] at h4
      exact Bool.false_ne_true h4
    by_cases hl : cfg.ENABLE_FIREBASE_LOGGING <;> simp [hl, hne, h4, hp, hs]

/-- Witness for C2 at a concrete valid configuration and filesystem. -/
theorem validate_config_accepts_valid_witness :
    (validate_config (fsOnly "./firebase-credentials.json") cfgSample).result = true :=
  validate_config_accepts_valid (fsOnly "./firebase-credentials.json") cfgSample
    (by norm_num [cfgSample]) (by norm_num [cfgSample]) (by norm_num [cfgSample])
    (Or.inr (by decide))

/-- C6: with the other invariants satisfied, a `MAX_POSITION_SIZE` that is
zero, `1.5`, or negative makes `validate_config` return `false` with the
position-size violation as the only reported error. -/
theorem validate_config_position_size_only_error (fs : FileSystem) (cfg : TradingConfig)
    (hmps : cfg.MAX_POSITION_SIZE = 0 ∨ cfg.MAX_POSITION_SIZE = 3 / 2 ∨
            cfg.MAX_POSITION_SIZE < 0)
    (h3 : 0 < cfg.STOP_LOSS_PERCENT)
    (h4 : cfg.ENABLE_FIREBASE_LOGGING = false ∨
          fs.pathExists cfg.FIREBASE_CREDENTIALS_PATH = true) :
    (validate_config fs cfg).result = false ∧
    (validate_config fs cfg).errors = ["MAX_POSITION_SIZE must be between 0 and 1"] := by
  unfold validate_config
  have hp : cfg.MAX_POSITION_SIZE ≤ 0 ∨ 1 < cfg.MAX_POSITION_SIZE := by
    rcases hmps with h | h | h
    · exact Or.inl (le_of_eq h)
    · exact Or.inr (by rw [h]; norm_num)
    · exact Or.inl (le_of_lt h)
  have hs : ¬ cfg.STOP_LOSS_PERCENT ≤ 0 := not_le.mpr h3
  rcases h4 with h4 | h4
  · simp [h4, hp, hs]
  · have hne : cfg.FIREBASE_CREDENTIALS_PATH ≠ "" := by
      intro he
      rw [he] at h4
      rw [fs.empty_path_absent] at h4
      exact Bool.false_ne_true h4
    by_cases hl : cfg.ENABLE_FIREBASE_LOGGING <;> simp [hl, hne, h4, hp, hs]

/-- Witness for C6: `MAX_POSITION_SIZE = 1.5` on an otherwise valid
configuration yields `false` and exactly the one error. -/
theorem validate_config_position_size_only_error_witness :
    (validate_config (fsOnly "./firebase-credentials.json")
        { cfgSample with MAX_POSITION_SIZE := 3 / 2 }).result = false ∧
    (validate_config (fsOnly "./firebase-credentials.json")
        { cfgSample with MAX_POSITION_SIZE := 3 / 2 }).errors =
      ["MAX_POSITION_SIZE must be between 0 and 1"] :=
  validate_config_position_size_only_error (fsOnly "./firebase-credentials.json")
    { cfgSample with MAX_POSITION_SIZE := 3 / 2 }
    (Or.inr (Or.inl rfl)) (by norm_num [cfgSample]) (Or.inr (by decide))

/-- C7: empty exchange credentials produce exactly the simulation-mode
warning, and the returned value is the one the same configuration would get
with any other credential values: the key fields never affect the result. -/
theorem validate_config_empty_keys_warn_only (fs : FileSystem) (cfg : TradingConfig)
    (k s : String)
    (hk : cfg.EXCHANGE_API_KEY = "" ∨ cfg.EXCHANGE_SECRET_KEY = "") :
    (validate_config fs cfg).warnings =
      ["Exchange API credentials not configured - running in simulation mode only"] ∧
    (validate_config fs cfg).result =
      (validate_config fs
        { cfg with EXCHANGE_API_KEY := k, EXCHANGE_SECRET_KEY := s }).result := by
  constructor
  · unfold validate_config
    simp only
    rw [if_pos hk]
  · unfold validate_config
    rfl

/-- Witness for C7: the sample configuration has empty credentials; filling
them in does not change the validation result. -/
theorem validate_config_empty_keys_warn_only_witness :
    (validate_config (fsOnly "./firebase-credentials.json") cfgSample).warnings =
      ["Exchange API credentials not configured - running in simulation mode only"] ∧
    (validate_config (fsOnly "./firebase-credentials.json") cfgSample).result =
      (validate_config (fsOnly "./firebase-credentials.json")
        { cfgSample with EXCHANGE_API_KEY := "k", EXCHANGE_SECRET_KEY := "s" }).result :=
  validate_config_empty_keys_warn_only (fsOnly "./firebase-credentials.json") cfgSample
    "k" "s" (Or.inl rfl)

/-- C8: the rules are evaluated independently: a configuration violating the
credentials-file rule, the position-size rule and the stop-loss rule at once
collects one error for each of the three violations, in source order. -/
theorem validate_config_collects_all_errors (fs : FileSystem) (cfg : TradingConfig)
    (hl : cfg.ENABLE_FIREBASE_LOGGING = true)
    (hne : cfg.FIREBASE_CREDENTIALS_PATH ≠ "")
    (hmiss : fs.pathExists cfg.FIREBASE_CREDENTIALS_PATH = false)
    (hp : cfg.MAX_POSITION_SIZE ≤ 0 ∨ 1 < cfg.MAX_POSITION_SIZE)
    (hs : cfg.STOP_LOSS_PERCENT ≤ 0) :
    (validate_config fs cfg).errors =
      ["Firebase credentials file not found: " ++ cfg.FIREBASE_CREDENTIALS_PATH,
       "MAX_POSITION_SIZE must be between 0 and 1",
       "STOP_LOSS_PERCENT must be positive"] ∧
    (validate_config fs cfg).result = false := by
  unfold validate_config
  simp [hl, hne, hmiss, hp, hs]

/-- Witness for C8: an all-bad configuration on an empty filesystem reports
all three errors. -/
theorem validate_config_collects_all_errors_witness :
    (validate_config fsNone
      { cfgSample with MAX_POSITION_SIZE := 2, STOP_LOSS_PERCENT := 0 }).errors =
      ["Firebase credentials file not found: ./firebase-credentials.json",
       "MAX_POSITION_SIZE must be between 0 and 1",
       "STOP_LOSS_PERCENT must be positive"] ∧
    (validate_config fsNone
      { cfgSample with MAX_POSITION_SIZE := 2, STOP_LOSS_PERCENT := 0 }).result = false :=
  validate_config_collects_all_errors fsNone
    { cfgSample with MAX_POSITION_SIZE := 2, STOP_LOSS_PERCENT := 0 }
    rfl (by decide) rfl (Or.inr (by norm_num)) (by norm_num)

/-! ## `FirebaseManager.__init__` (src/firebase_manager.py, lines 16-61)

The module header (lines 5-11) imports `json`, `logging`, `typing`,
`datetime` and the `firebase_admin` names, but never `os`.  The expression
`os.path.exists(credentials_path)` at line 34 therefore raises `NameError`
whenever it is evaluated. -/

/-- The Python exceptions that matter to the constructor. -/
inductive PyError where
  | valueError
  | nameError
  | fileNotFoundError
deriving DecidableEq, Repr

/-- A Python value passed as `credentials_path`: either a `str` or some
non-string object of the given truthiness (Python truthiness of a string is
its non-emptiness). -/
inductive PyVal where
  | str (s : String)
  | nonString (truthy : Bool)
deriving DecidableEq, Repr

/-- Python truthiness of the argument. -/
def PyVal.pyTruthy : PyVal → Bool
  | .str s => s ≠ ""
  | .nonString t => t

/-- `isinstance(v, str)`. -/
def PyVal.isStr : PyVal → Bool
  | .str _ => true
  | .nonString _ => false

/-- The log lines the constructor can emit. -/
inductive FmLogLine where
  | errorCredsNotFound (path : String)
  | infoAppInitOk
  | infoReuseApp
deriving DecidableEq, Repr

/-- The connection handle the constructor builds: the backend app (by
identity), and whether a real-time database reference was opened
(`db.reference() if database_url else None`). -/
structure FmHandle where
  app : Nat
  hasRealtimeDb : Bool
deriving DecidableEq, Repr

/-- Observable outcome of one constructor call: the log lines emitted, the
post-call contents of the process-wide `firebase_admin._apps` registry
(app identities), and either the handle or the exception raised. -/
structure InitOutcome where
  logs : List FmLogLine
  apps : List Nat
  result : Except PyError FmHandle
deriving Repr

/-- Embeds `FirebaseManager.__init__` as written (lines 28-61): the check
at lines 31-32 raises `ValueError` for a falsy or non-string
`credentials_path`; otherwise line 34 evaluates `os.path.exists` and raises
`NameError`, because the module never imports `os`.  `NameError` is not a
`FirebaseError`, so the handlers at lines 56-61 re-raise it; no filesystem
or backend access happens on any path, which the embedding reflects by
never consulting `fs` or mutating `apps`. -/
def fmInit (cred : PyVal) (dbUrl : Option String) (fs : FileSystem)
    (apps : List Nat) : InitOutcome :=
  if ¬ cred.pyTruthy ∨ ¬ cred.isStr then
    ⟨[], apps, .error .valueError⟩
  else
    ⟨[], apps, .error .nameError⟩

/-- The body lines 34-54 as they would execute if the name `os` resolved to
the standard library module (the behaviour the docstring at lines 24-26 and
the spec describe): dead code in the module as written, reachable only
after adding the missing `import os`.  A fresh app identity is one past the
largest registered identity. -/
def fmInitAfterOsCheck (credPath : String) (dbUrl : Option String)
    (fs : FileSystem) (apps : List Nat) : InitOutcome :=
  if fs.pathExists credPath = false then
    ⟨[.errorCredsNotFound credPath], apps, .error .fileNotFoundError⟩
  else
    let hasDb : Bool := match dbUrl with
      | none => false
      | some u => u ≠ ""
    if apps.isEmpty then
      let fresh := (apps.foldr max 0) + 1
      ⟨[.infoAppInitOk], [fresh], .ok ⟨fresh, hasDb⟩⟩
    else
      ⟨[.infoReuseApp], apps, .ok ⟨apps.headI, hasDb⟩⟩

/-- C9: an empty-string or non-string `credentials_path` makes the
constructor raise `ValueError` at once: no log line, no change to the app
registry, no handle, and the whole outcome is a constant independent of the
filesystem — the check precedes any filesystem or backend access. -/
theorem fmInit_bad_path_fails_fast (dbUrl : Option String) (fs : FileSystem)
    (apps : List Nat) (t : Bool) :
    fmInit (.str "") dbUrl fs apps = ⟨[], apps, .error .valueError⟩ ∧
    fmInit (.nonString t) dbUrl fs apps = ⟨[], apps, .error .valueError⟩ := by
  constructor
  · rfl
  · cases t <;> rfl

/-- C10: for every non-empty string path the constructor raises `NameError`
(the module never imports `os`), and neither the `FileNotFoundError` branch
nor the success branch is reachable for any input whatsoever. -/
theorem fmInit_always_nameError (s : String) (hs : s ≠ "") :
    (∀ dbUrl fs apps, fmInit (.str s) dbUrl fs apps = ⟨[], apps, .error .nameError⟩) ∧
    (∀ cred dbUrl fs apps,
      (fmInit cred dbUrl fs apps).result ≠ .error .fileNotFoundError) ∧
    (∀ cred dbUrl fs apps h, (fmInit cred dbUrl fs apps).result ≠ .ok h) := by
  refine ⟨fun dbUrl fs apps => ?_, fun cred dbUrl fs apps => ?_, fun cred dbUrl fs apps h => ?_⟩
  · have ht : PyVal.pyTruthy (.str s) = true := by
      simp [PyVal.pyTruthy, hs]
    simp [fmInit, ht, PyVal.isStr]
  · unfold fmInit
    split <;> simp
  · unfold fmInit
    split <;> simp

/-- Witness for C10 at the concrete path of the sample configuration. -/
theorem fmInit_always_nameError_witness :
    (∀ dbUrl fs apps,
      fmInit (.str "./firebase-credentials.json") dbUrl fs apps =
        ⟨[], apps, .error .nameError⟩) ∧
    (∀ cred dbUrl fs apps,
      (fmInit cred dbUrl fs apps).result ≠ .error .fileNotFoundError) ∧
    (∀ cred dbUrl fs apps h, (fmInit cred dbUrl fs apps).result ≠ .ok h) :=
  fmInit_always_nameError "./firebase-credentials.json" (by decide)

/-- C1 fails on the code: a non-empty path that exists on no filesystem
makes the constructor raise `NameError`, not the `FileNotFoundError` its
own docstring (lines 24-26) promises, because `os` is never imported. -/
theorem fmInit_missing_file_raises_nameError :
    fmInit (.str "missing.json") none fsNone [] =
      ⟨[], [], .error .nameError⟩ ∧
    (fmInit (.str "missing.json") none fsNone []).result ≠
      .error .fileNotFoundError := by
  constructor
  · rfl
  · intro h
    simp [fmInit, PyVal.pyTruthy, PyVal.isStr] at h

/-- C3 fails on the code: two successive constructor calls with the same
arguments — even with the credentials file present on disk — both raise
`NameError` before reaching the app-reuse logic of lines 38-54; no handle
is ever returned and no "initialized" log line is produced by either call,
where the claim promises an identical handle and exactly one such line. -/
theorem fmInit_second_call_also_nameError :
    (fmInit (.str "creds.json") none (fsOnly "creds.json") []).result =
      .error .nameError ∧
    (fmInit (.str "creds.json") none
        (fsOnly "creds.json")
        (fmInit (.str "creds.json") none (fsOnly "creds.json") []).apps).result =
      .error .nameError ∧
    (fmInit (.str "creds.json") none (fsOnly "creds.json") []).logs = [] := by
  refine ⟨rfl, rfl, rfl⟩

/-! ## `FirebaseManager.log_trading_event`

The source file `src/firebase_manager.py` breaks off inside this method's
docstring at line 73, so the body is absent from the tree; the definitions
below are modelled from the specification (sections 4.3, 7 and 8). -/

/-- Outcome of one backend write attempt, as the spec's failure taxonomy
classifies it: success, a transient error (timeout, rate limit), or a
permanent error (malformed payload, permission denial). -/
inductive WriteOutcome where
  | ok
  | transient
  | permanent
deriving DecidableEq, Repr

/-- The backend as the logger observes it: the outcome of the i-th primary
document-store write attempt, and the outcome of the real-time mirror
write. -/
structure Backend where
  primary : Nat → WriteOutcome
  mirror : WriteOutcome

/-- Modelled from the spec: the "small fixed attempt count" of the bounded
retry policy; the spec fixes no number, 3 stands for it. -/
def maxAttempts : Nat := 3

/-- Modelled from the spec: the exponential backoff delay before the retry
following attempt `i` (in units of the base delay). -/
def backoffDelay (i : Nat) : Nat := 2 ^ i

/-- What the retry loop reports: whether a primary write succeeded, how
many write attempts were made, and which backoff delays were slept. -/
structure RetryResult where
  success : Bool
  attempts : Nat
  delays : List Nat
deriving DecidableEq, Repr

/-- Modelled from the spec: the primary-write retry loop of
`log_trading_event`.  `fuel` is the number of attempts still allowed and
`i` the index of the next attempt.  A successful attempt stops the loop; a
permanent error is reported immediately without retry; a transient error
sleeps the exponential backoff delay and retries while budget remains. -/
def primaryWithRetry (be : Backend) : Nat → Nat → RetryResult
  | 0, _ => ⟨false, 0, []⟩
  | fuel + 1, i =>
    match be.primary i with
    | .ok => ⟨true, 1, []⟩
    | .permanent => ⟨false, 1, []⟩
    | .transient =>
      match fuel with
      | 0 => ⟨false, 1, []⟩
      | _ + 1 =>
        let r := primaryWithRetry be fuel (i + 1)
        ⟨r.success, r.attempts + 1, backoffDelay i :: r.delays⟩

/-- Observable outcome of a `log_trading_event` call that did not raise:
the returned boolean, the number of primary write attempts, the backoff
delays slept, and whether a degraded-mirror warning was logged. -/
structure LogEventOutcome where
  result : Bool
  attempts : Nat
  delays : List Nat
  mirrorWarned : Bool
deriving DecidableEq, Repr

/-- Modelled from the spec: the body of `FirebaseManager.log_trading_event`
(absent from the source tree past line 73).  An empty `event_type` is a
caller programming error and raises; otherwise the primary document-store
write runs under the bounded retry policy, and on primary success the
mirror write runs when a real-time reference is configured, its failure
logged as a warning without changing the returned boolean.  The returned
boolean is the primary write's success; backend failures never raise. -/
def log_trading_event (be : Backend) (hasMirror : Bool)
    (event_type collection : String) : Except PyError LogEventOutcome :=
  if event_type = "" then
    .error .valueError
  else
    let r := primaryWithRetry be maxAttempts 0
    if r.success then
      let warned := hasMirror && !(be.mirror == .ok)
      .ok ⟨true, r.attempts, r.delays, warned⟩
    else
      .ok ⟨false, r.attempts, r.delays, false⟩

/-- The spec-side success condition for the primary write: some attempt
within the retry budget succeeds and every earlier attempt only failed
transiently. -/
def primaryEventuallyOk (be : Backend) : Prop :=
  ∃ k, k < maxAttempts ∧ be.primary k = .ok ∧
    ∀ j, j < k → be.primary j = .transient

theorem primaryWithRetry_success_iff (be : Backend) :
    (primaryWithRetry be maxAttempts 0).success = true ↔ primaryEventuallyOk be := by
  constructor
  · intro h
    rcases h0 : be.primary 0 with _ | _ | _
    · exact ⟨0, by norm_num [maxAttempts], h0, fun j hj => absurd hj (by omega)⟩
    · rcases h1 : be.primary 1 with _ | _ | _
      · refine ⟨1, by norm_num [maxAttempts], h1, fun j hj => ?_⟩
        interval_cases j
        exact h0
      · rcases h2 : be.primary 2 with _ | _ | _
        · refine ⟨2, by norm_num [maxAttempts], h2, fun j hj => ?_⟩
          interval_cases j
          · exact h0
          · exact h1
        · simp [primaryWithRetry, maxAttempts, h0, h1, h2] at h
        · simp [primaryWithRetry, maxAttempts, h0, h1, h2] at h
      · simp [primaryWithRetry, maxAttempts, h0, h1] at h
    · simp [primaryWithRetry, maxAttempts, h0] at h
  · rintro ⟨k, hk, hok, hprev⟩
    have hk3 : k < 3 := by simpa [maxAttempts] using hk
    interval_cases k
    · simp [primaryWithRetry, maxAttempts, hok]
    · have h0 := hprev 0 (by omega)
      simp [primaryWithRetry, maxAttempts, h0, hok]
    · have h0 := hprev 0 (by omega)
      have h1 := hprev 1 (by omega)
      simp [primaryWithRetry, maxAttempts, h0, h1, hok]

theorem primaryWithRetry_attempts_le (be : Backend) :
    ∀ fuel i, (primaryWithRetry be fuel i).attempts ≤ fuel := by
  intro fuel
  induction fuel with
  | zero => intro i; simp [primaryWithRetry]
  | succ n ih =>
    intro i
    rcases h : be.primary i with _ | _ | _ <;>
      simp only [primaryWithRetry, h]
    · exact by omega
    · match n with
      | 0 => simp
      | m + 1 =>
        simp only
        have := ih (i + 1)
        omega
    · exact by omega

/-- A healthy backend whose mirror write fails transiently. -/
def beOkMirrorFail : Backend :=
  ⟨fun _ => .ok, .transient⟩

/-- A backend whose primary write fails transiently on every attempt. -/
def beAllTransient : Backend :=
  ⟨fun _ => .transient, .ok⟩

/-- C4: `log_trading_event` returns `true` exactly when the primary
document-store write succeeds within the retry policy; in particular, when
the primary write succeeds and the configured mirror write fails, it still
returns `true` and the mirror failure is only logged as a warning. -/
theorem log_trading_event_true_iff_primary_ok (be : Backend) (hm : Bool)
    (et coll : String) (hne : et ≠ "") :
    ∃ o, log_trading_event be hm et coll = .ok o ∧
      (o.result = true ↔ primaryEventuallyOk be) ∧
      (primaryEventuallyOk be → hm = true → be.mirror ≠ .ok →
        o.result = true ∧ o.mirrorWarned = true) := by
  unfold log_trading_event
  rw [if_neg hne]
  by_cases hsucc : (primaryWithRetry be maxAttempts 0).success = true
  · rw [if_pos hsucc]
    refine ⟨_, rfl, ?_, ?_⟩
    · simpa using (primaryWithRetry_success_iff be).mp hsucc
    · intro _ hhm hmir
      refine ⟨rfl, ?_⟩
      simp only [hhm, Bool.true_and, Bool.not_eq_eq_eq_not, Bool.not_true]
      simp [hmir]
  · rw [if_neg hsucc]
    refine ⟨_, rfl, ?_, ?_⟩
    · constructor
      · intro hfalse
        exact absurd hfalse (by simp)
      · intro hok
        exact absurd ((primaryWithRetry_success_iff be).mpr hok) hsucc
    · intro hok
      exact absurd ((primaryWithRetry_success_iff be).mpr hok) hsucc

/-- Witness for C4: a healthy primary with a failing mirror returns `true`
with the degraded-mirror warning. -/
theorem log_trading_event_true_iff_primary_ok_witness :
    ∃ o, log_trading_event beOkMirrorFail true "signal_generated" "trading_events" =
        .ok o ∧
      (o.result = true ↔ primaryEventuallyOk beOkMirrorFail) ∧
      (primaryEventuallyOk beOkMirrorFail → true = true →
        beOkMirrorFail.mirror ≠ .ok →
        o.result = true ∧ o.mirrorWarned = true) :=
  log_trading_event_true_iff_primary_ok beOkMirrorFail true
    "signal_generated" "trading_events" (by decide)

/-- C5: the retry semantics of `log_trading_event`: the attempt count is
bounded by the fixed budget and backend failures never raise; a backend
that only fails transiently is retried with exponential backoff delays
until the budget is exhausted and then reported as `false`; a permanent
error on the first attempt is reported as `false` immediately, with no
retry and no backoff; and an empty `event_type` is a caller programming
error that raises `ValueError`. -/
theorem log_trading_event_retry_semantics (be : Backend) (hm : Bool)
    (et coll : String) (hne : et ≠ "") :
    (∃ o, log_trading_event be hm et coll = .ok o ∧ o.attempts ≤ maxAttempts) ∧
    ((∀ i, be.primary i = .transient) →
      log_trading_event be hm et coll =
        .ok ⟨false, maxAttempts, [backoffDelay 0, backoffDelay 1], false⟩) ∧
    (be.primary 0 = .permanent →
      log_trading_event be hm et coll = .ok ⟨false, 1, [], false⟩) ∧
    log_trading_event be hm "" coll = .error .valueError := by
  refine ⟨?_, ?_, ?_, ?_⟩
  · unfold log_trading_event
    rw [if_neg hne]
    by_cases hsucc : (primaryWithRetry be maxAttempts 0).success = true
    · rw [if_pos hsucc]
      exact ⟨_, rfl, primaryWithRetry_attempts_le be maxAttempts 0⟩
    · rw [if_neg hsucc]
      exact ⟨_, rfl, primaryWithRetry_attempts_le be maxAttempts 0⟩
  · intro htr
    unfold log_trading_event
    rw [if_neg hne]
    have hr : primaryWithRetry be maxAttempts 0 =
        ⟨false, maxAttempts, [backoffDelay 0, backoffDelay 1]⟩ := by
      simp [primaryWithRetry, maxAttempts, htr 0, htr 1, htr 2]
    rw [hr]
    rfl
  · intro hperm
    unfold log_trading_event
    rw [if_neg hne]
    have hr : primaryWithRetry be maxAttempts 0 = ⟨false, 1, []⟩ := by
      simp [primaryWithRetry, maxAttempts, hperm]
    rw [hr]
    rfl
  · rfl

/-- Witness for C5 on the all-transient backend. -/
theorem log_trading_event_retry_semantics_witness :
    (∃ o, log_trading_event beAllTransient false "trade_executed" "trading_events" =
        .ok o ∧ o.attempts ≤ maxAttempts) ∧
    ((∀ i, beAllTransient.primary i = .transient) →
      log_trading_event beAllTransient false "trade_executed" "trading_events" =
        .ok ⟨false, maxAttempts, [backoffDelay 0, backoffDelay 1], false⟩) ∧
    (beAllTransient.primary 0 = .permanent →
      log_trading_event beAllTransient false "trade_executed" "trading_events" =
        .ok ⟨false, 1, [], false⟩) ∧
    log_trading_event beAllTransient false "" "trading_events" =
      .error .valueError :=
  log_trading_event_retry_semantics beAllTransient false
    "trade_executed" "trading_events" (by decide)
